import Mathlib

/-!
# back-bdb2 add routine (`servers/slapd/back-bdb2/add.c`)

A shallow embedding of `bdb2i_back_add_internal` and `bdb2_back_add`.

The two C functions are straight-line code with early returns and one
`goto return_results`.  Every collaborator (name lookup, schema check, cache,
index writers, lock primitives, ...) is called at most once per run, so a run
is determined by the value each collaborator hands back.  Those values are
collected in `World`; a run is embedded as the list of collaborator calls it
performs, in program order, together with the C return value.

The `Debug(...)` logging macro is not part of the trace.
-/

namespace BackBdb2

/-! ## Constants declared in headers outside `add.c`

`add.c` names six LDAP result codes and one entry state; their `#define`s
live in `ldap.h` and `back-bdb2.h`.  The numeric values below are those of the
LDAP protocol; the theorems use only that the six codes are distinct and that
`ENTRY_STATE_CREATING` is not `0`. -/

/-- Modelled from the spec: result code Success of section 6 (macro
`LDAP_SUCCESS`, header `ldap.h`). -/
def LDAP_SUCCESS : Nat := 0

/-- Modelled from the spec: result code OperationsError of section 6 (macro
`LDAP_OPERATIONS_ERROR`, header `ldap.h`). -/
def LDAP_OPERATIONS_ERROR : Nat := 1

/-- Modelled from the spec: result code NoSuchObject of section 6 (macro
`LDAP_NO_SUCH_OBJECT`, header `ldap.h`). -/
def LDAP_NO_SUCH_OBJECT : Nat := 32

/-- Modelled from the spec: result code InsufficientAccess of section 6 (macro
`LDAP_INSUFFICIENT_ACCESS`, header `ldap.h`). -/
def LDAP_INSUFFICIENT_ACCESS : Nat := 50

/-- Modelled from the spec: result code ObjectClassViolation of section 6
(macro `LDAP_OBJECT_CLASS_VIOLATION`, header `ldap.h`). -/
def LDAP_OBJECT_CLASS_VIOLATION : Nat := 65

/-- Modelled from the spec: result code AlreadyExists of section 6 (macro
`LDAP_ALREADY_EXISTS`, header `ldap.h`). -/
def LDAP_ALREADY_EXISTS : Nat := 68

/-- Modelled from the spec: the Provisional lifecycle state of section 3 (macro
`ENTRY_STATE_CREATING`, header `back-bdb2.h`), distinct from the state `0`
that line 234 writes. -/
def ENTRY_STATE_CREATING : Nat := 2

/-! ## Trace vocabulary -/

/-- The two mutexes of `struct ldbminfo` that `add.c` touches. -/
inductive Mutex where
  | li_add_mutex
  | li_root_mutex
  deriving DecidableEq, Repr

/-- The two `Entry *` variables of `bdb2i_back_add_internal`: the parent `p`
(a cache-owned entry) and the candidate `e` (not yet in the cache when the
parent is looked up, so the two never alias). -/
inductive EntryVar where
  | p
  | e
  deriving DecidableEq, Repr

/-- One collaborator call, with the arguments and the outcome that matter. -/
inductive Event where
  | gettimeofday
  | bdb2i_enter_backend_w (rc : Int)
  | bdb2i_check_default_attr_index_add
  | bdb2i_leave_backend
  | bdb2i_elapsed
  | free_elapsed_time
  | mutex_lock (m : Mutex)
  | mutex_unlock (m : Mutex)
  | bdb2i_dn2id (ndn : String) (id : Nat)
  | oc_schema_check (rc : Int)
  | dn_parent (ndn : String) (pdn : Option String)
  | bdb2i_dn2entry_w (pdn : String) (p : Option Nat) (matched : Option String)
  | access_allowed (x : EntryVar) (attr : String) (rc : Int)
  | be_isroot (rc : Int)
  | bdb2i_cache_return_entry_w (x : EntryVar)
  | entry_rdwr_lock (x : EntryVar) (rw : Nat) (rc : Int)
  | entry_rdwr_unlock (x : EntryVar) (rw : Nat)
  | bdb2i_next_id (id : Nat)
  | bdb2i_next_id_return (id : Nat)
  | bdb2i_cache_add_entry_lock (x : EntryVar) (state : Nat) (rc : Int)
  | bdb2i_cache_set_state (x : EntryVar) (state : Nat)
  | bdb2i_id2children_add (p : Option Nat) (rc : Int)
  | bdb2i_index_add_entry (rc : Int)
  | bdb2i_dn2id_add (ndn : String) (id : Nat) (rc : Int)
  | bdb2i_id2entry_add (rc : Int)
  | bdb2i_dn2id_delete (ndn : String)
  | entry_free (x : EntryVar)
  | free_pdn
  | free_matched
  | send_ldap_result (code : Nat) (matched : Option String)
  deriving DecidableEq, Repr

/-- What each collaborator hands back during one run, plus the globals and
the header constant `NOID` that `add.c` reads.  C `int` results are `Int`,
pointers that may be `NULL` are `Option`; the parent entry found by
`bdb2i_dn2entry_w` is named by its identifier. -/
structure World where
  /-- value of the macro `NOID` (declared in `slap.h`) -/
  NOID : Nat
  /-- `e->e_ndn` of the candidate entry -/
  e_ndn : String
  bdb2i_enter_backend_w : Int
  bdb2i_with_dbenv : Int
  bdb2i_do_timing : Int
  bdb2i_dn2id : Nat
  global_schemacheck : Int
  oc_schema_check : Int
  dn_parent : Option String
  bdb2i_dn2entry_w : Option Nat
  /-- what `bdb2i_dn2entry_w` stores through `&matched` -/
  matched : Option String
  access_allowed : Int
  be_isroot : Int
  entry_rdwr_lock : Int
  bdb2i_next_id : Nat
  bdb2i_cache_add_entry_lock : Int
  bdb2i_id2children_add : Int
  bdb2i_index_add_entry : Int
  bdb2i_dn2id_add : Int
  bdb2i_id2entry_add : Int

/-! ## The code -/

/-- A run: the collaborator calls made, in program order, and the value returned. -/
abbrev Run := List Event × Int

/-- Perform one call, then continue with `k`. -/
def call (ev : Event) (k : Run) : Run := (ev :: k.1, k.2)

/-- The C statement `return rc;`. -/
def ret (rc : Int) : Run := ([], rc)

/-- A call guarded by a condition: `if (c) call;`, then continue with `k`. -/
def callIf (c : Prop) [Decidable c] (ev : Event) (k : Run) : Run :=
  if c then call ev k else k

/-- The label `return_results:` (lines 222-239), reached with the locals `p`,
`rootlock` and `rc`. -/
def return_results (p : Option Nat) (rootlock : Int) (rc : Int) : Run :=
  callIf (p ≠ none) (Event.bdb2i_cache_return_entry_w EntryVar.p) <|
  callIf (rootlock ≠ 0) (Event.mutex_unlock Mutex.li_root_mutex) <|
  call (Event.bdb2i_cache_set_state EntryVar.e 0) <|
  call (Event.bdb2i_cache_return_entry_w EntryVar.e) <|
  ret rc

/-- Lines 124-240 of `bdb2i_back_add_internal`: everything after the parent
or root lock has been taken, entered with the locals `p` and `rootlock` as
lines 58-122 left them (and `rc = -1`). -/
def add_under_lock (w : World) (p : Option Nat) (rootlock : Int) : Run :=
  call (Event.entry_rdwr_lock EntryVar.e 1 w.entry_rdwr_lock) <|
  if w.entry_rdwr_lock ≠ 0 then
    callIf (p ≠ none) (Event.bdb2i_cache_return_entry_w EntryVar.p) <|
    callIf (rootlock ≠ 0) (Event.mutex_unlock Mutex.li_root_mutex) <|
    call (Event.entry_free EntryVar.e) <|
    call (Event.send_ldap_result LDAP_OPERATIONS_ERROR (some "")) <|
    ret (-1)
  else
  let e_id := w.bdb2i_next_id
  call (Event.bdb2i_next_id e_id) <|
  call (Event.bdb2i_cache_add_entry_lock EntryVar.e ENTRY_STATE_CREATING
          w.bdb2i_cache_add_entry_lock) <|
  if w.bdb2i_cache_add_entry_lock ≠ 0 then
    callIf (p ≠ none) (Event.bdb2i_cache_return_entry_w EntryVar.p) <|
    callIf (rootlock ≠ 0) (Event.mutex_unlock Mutex.li_root_mutex) <|
    call (Event.bdb2i_next_id_return e_id) <|
    call (Event.entry_rdwr_unlock EntryVar.e 1) <|
    call (Event.entry_free EntryVar.e) <|
    call (Event.send_ldap_result LDAP_ALREADY_EXISTS (some "")) <|
    ret (-1)
  else
  call (Event.bdb2i_id2children_add p w.bdb2i_id2children_add) <|
  if w.bdb2i_id2children_add ≠ 0 then
    call (Event.send_ldap_result LDAP_OPERATIONS_ERROR (some "")) <|
    return_results p rootlock (-1)
  else
  call (Event.bdb2i_index_add_entry w.bdb2i_index_add_entry) <|
  if w.bdb2i_index_add_entry ≠ 0 then
    call (Event.send_ldap_result LDAP_OPERATIONS_ERROR (some "")) <|
    return_results p rootlock (-1)
  else
  call (Event.bdb2i_dn2id_add w.e_ndn e_id w.bdb2i_dn2id_add) <|
  if w.bdb2i_dn2id_add ≠ 0 then
    call (Event.send_ldap_result LDAP_OPERATIONS_ERROR (some "")) <|
    return_results p rootlock (-1)
  else
  call (Event.bdb2i_id2entry_add w.bdb2i_id2entry_add) <|
  if w.bdb2i_id2entry_add ≠ 0 then
    call (Event.bdb2i_dn2id_delete w.e_ndn) <|
    call (Event.send_ldap_result LDAP_OPERATIONS_ERROR (some "")) <|
    return_results p rootlock (-1)
  else
  call (Event.send_ldap_result LDAP_SUCCESS (some "")) <|
  return_results p rootlock 0

/-- The function `bdb2i_back_add_internal` (lines 14-240): the calls it makes
and its return value. -/
def bdb2i_back_add_internal (w : World) : Run :=
  call (Event.mutex_lock Mutex.li_add_mutex) <|
  call (Event.bdb2i_dn2id w.e_ndn w.bdb2i_dn2id) <|
  if w.bdb2i_dn2id ≠ w.NOID then
    call (Event.mutex_unlock Mutex.li_add_mutex) <|
    call (Event.entry_free EntryVar.e) <|
    call (Event.send_ldap_result LDAP_ALREADY_EXISTS (some "")) <|
    ret (-1)
  else
  callIf (w.global_schemacheck ≠ 0) (Event.oc_schema_check w.oc_schema_check) <|
  if w.global_schemacheck ≠ 0 ∧ w.oc_schema_check ≠ 0 then
    call (Event.mutex_unlock Mutex.li_add_mutex) <|
    call (Event.entry_free EntryVar.e) <|
    call (Event.send_ldap_result LDAP_OBJECT_CLASS_VIOLATION (some "")) <|
    ret (-1)
  else
  call (Event.dn_parent w.e_ndn w.dn_parent) <|
  match w.dn_parent with
  | some pdn =>
    call (Event.bdb2i_dn2entry_w pdn w.bdb2i_dn2entry_w w.matched) <|
    match w.bdb2i_dn2entry_w with
    | none =>
      call (Event.mutex_unlock Mutex.li_add_mutex) <|
      call (Event.send_ldap_result LDAP_NO_SUCH_OBJECT w.matched) <|
      callIf (w.matched ≠ none) Event.free_matched <|
      call (Event.entry_free EntryVar.e) <|
      call Event.free_pdn <|
      ret (-1)
    | some pid =>
      call (Event.mutex_unlock Mutex.li_add_mutex) <|
      call Event.free_pdn <|
      callIf (w.matched ≠ none) Event.free_matched <|
      call (Event.access_allowed EntryVar.p "children" w.access_allowed) <|
      if w.access_allowed = 0 then
        call (Event.send_ldap_result LDAP_INSUFFICIENT_ACCESS (some "")) <|
        call (Event.bdb2i_cache_return_entry_w EntryVar.p) <|
        call (Event.entry_free EntryVar.e) <|
        ret (-1)
      else
        add_under_lock w (some pid) 0
  | none =>
    call (Event.be_isroot w.be_isroot) <|
    if w.be_isroot = 0 then
      call (Event.mutex_unlock Mutex.li_add_mutex) <|
      call (Event.send_ldap_result LDAP_INSUFFICIENT_ACCESS (some "")) <|
      call (Event.entry_free EntryVar.e) <|
      ret (-1)
    else
      call (Event.mutex_lock Mutex.li_root_mutex) <|
      call (Event.mutex_unlock Mutex.li_add_mutex) <|
      add_under_lock w none 1

/-- The code of `bdb2_back_add` after `bdb2i_back_add_internal` has returned
`rc` (lines 274-286); the three calls of the timing block share the one test
`if (bdb2i_do_timing)`. -/
def leave_and_time (w : World) (rc : Int) : Run :=
  call Event.bdb2i_leave_backend <|
  callIf (w.bdb2i_do_timing ≠ 0) Event.gettimeofday <|
  callIf (w.bdb2i_do_timing ≠ 0) Event.bdb2i_elapsed <|
  callIf (w.bdb2i_do_timing ≠ 0) Event.free_elapsed_time <|
  ret rc

/-- Sequencing of a callee: run `r`, then continue with `k` applied to the
value `r` returned. -/
def andThen (r : Run) (k : Int → Run) : Run :=
  (r.1 ++ (k r.2).1, (k r.2).2)

/-- The function `bdb2_back_add` (lines 243-287). -/
def bdb2_back_add (w : World) : Run :=
  call Event.gettimeofday <|
  call (Event.bdb2i_enter_backend_w w.bdb2i_enter_backend_w) <|
  if w.bdb2i_enter_backend_w ≠ 0 then
    call (Event.send_ldap_result LDAP_OPERATIONS_ERROR (some "")) <|
    ret (-1)
  else
  callIf (w.bdb2i_with_dbenv ≠ 0) Event.bdb2i_check_default_attr_index_add <|
  andThen (bdb2i_back_add_internal w) fun r =>
  leave_and_time w r

/-! ## Observations on a trace -/

/-- The `(code, matched)` pair of a `send_ldap_result` call. -/
def sent : Event → Option (Nat × Option String)
  | Event.send_ldap_result c m => some (c, m)
  | _ => none

/-- The results handed to `send_ldap_result`, in order. -/
def results (t : List Event) : List (Nat × Option String) := t.filterMap sent

/-- The result codes handed to `send_ldap_result`, in order. -/
def sentCodes (t : List Event) : List Nat := (results t).map Prod.fst

/-- The locks an insertion can take: the backend lock, the two mutexes, the
writer handle on the parent entry and the writer lock on the new entry. -/
inductive Lock where
  | backend
  | li_add_mutex
  | li_root_mutex
  | parent_w
  | entry_w
  deriving DecidableEq, Repr

/-- What a call means for the locking protocol: it takes a lock, gives one
back, reserves an identifier, or attempts an index or store write. -/
inductive Step where
  | acquire (l : Lock)
  | release (l : Lock)
  | reserve_id
  | index_write
  deriving DecidableEq, Repr

/-- The protocol meaning of a call.  `bdb2i_enter_backend_w` and
`entry_rdwr_lock` grant their lock when they return `0`;
`bdb2i_dn2entry_w` hands back the parent "with writer lock" (line 61) when it
finds it; `bdb2i_cache_return_entry_w` "frees the entry and its writer lock"
(lines 95, 127, 236). -/
def step : Event → Option Step
  | Event.bdb2i_enter_backend_w rc =>
      if rc = 0 then some (Step.acquire Lock.backend) else none
  | Event.bdb2i_leave_backend => some (Step.release Lock.backend)
  | Event.mutex_lock Mutex.li_add_mutex => some (Step.acquire Lock.li_add_mutex)
  | Event.mutex_lock Mutex.li_root_mutex => some (Step.acquire Lock.li_root_mutex)
  | Event.mutex_unlock Mutex.li_add_mutex => some (Step.release Lock.li_add_mutex)
  | Event.mutex_unlock Mutex.li_root_mutex => some (Step.release Lock.li_root_mutex)
  | Event.bdb2i_dn2entry_w _ (some _) _ => some (Step.acquire Lock.parent_w)
  | Event.bdb2i_cache_return_entry_w EntryVar.p => some (Step.release Lock.parent_w)
  | Event.bdb2i_cache_return_entry_w EntryVar.e => some (Step.release Lock.entry_w)
  | Event.entry_rdwr_lock EntryVar.e _ rc =>
      if rc = 0 then some (Step.acquire Lock.entry_w) else none
  | Event.entry_rdwr_unlock EntryVar.e _ => some (Step.release Lock.entry_w)
  | Event.bdb2i_next_id _ => some Step.reserve_id
  | Event.bdb2i_id2children_add _ _ => some Step.index_write
  | Event.bdb2i_index_add_entry _ => some Step.index_write
  | Event.bdb2i_dn2id_add _ _ _ => some Step.index_write
  | Event.bdb2i_id2entry_add _ => some Step.index_write
  | _ => none

/-- The protocol steps of a trace, in order. -/
def steps (t : List Event) : List Step := t.filterMap step

/-- Does a step take or give back lock `l`? -/
def touches (l : Lock) : Step → Bool
  | Step.acquire m => decide (m = l)
  | Step.release m => decide (m = l)
  | _ => false

/-- The locks taken by a sequence of steps, in order. -/
def acquisitions (s : List Step) : List Lock :=
  s.filterMap fun x =>
    match x with
    | Step.acquire l => some l
    | _ => none

/-- Lock `l` is held after the steps `s`: taken more often than given back. -/
def holds (l : Lock) (s : List Step) : Bool :=
  decide (s.count (Step.release l) < s.count (Step.acquire l))

/-- The four structures an insertion writes, in the order of lines 174-217. -/
inductive Store where
  | parent_child_index
  | attribute_indexes
  | name_index
  | primary_store
  deriving DecidableEq, Repr

/-- The structure a call writes a new record to, with the outcome of the
write (`0` is success). -/
def write : Event → Option (Store × Int)
  | Event.bdb2i_id2children_add _ rc => some (Store.parent_child_index, rc)
  | Event.bdb2i_index_add_entry rc => some (Store.attribute_indexes, rc)
  | Event.bdb2i_dn2id_add _ _ rc => some (Store.name_index, rc)
  | Event.bdb2i_id2entry_add rc => some (Store.primary_store, rc)
  | _ => none

/-- The writes attempted in a trace, in order, with their outcomes. -/
def writes (t : List Event) : List (Store × Int) := t.filterMap write

/-- The fixed sequence of section 2. -/
def writeOrder : List Store :=
  [Store.parent_child_index, Store.attribute_indexes, Store.name_index, Store.primary_store]

/-- All four writes attempted, each with outcome `0`. -/
def allWritten : List (Store × Int) :=
  [(Store.parent_child_index, 0), (Store.attribute_indexes, 0),
   (Store.name_index, 0), (Store.primary_store, 0)]

/-- Calls that change an index or the primary store: the four writes and the
delete of a Name Index record. -/
def isStoreMutation : Event → Bool
  | Event.bdb2i_id2children_add _ _ => true
  | Event.bdb2i_index_add_entry _ => true
  | Event.bdb2i_dn2id_add _ _ _ => true
  | Event.bdb2i_id2entry_add _ => true
  | Event.bdb2i_dn2id_delete _ => true
  | _ => false

/-- Calls to `send_ldap_result`. -/
def isSend : Event → Bool
  | Event.send_ldap_result _ _ => true
  | _ => false

/-- Calls to the Identifier Allocator. -/
def isIdOp : Event → Bool
  | Event.bdb2i_next_id _ => true
  | Event.bdb2i_next_id_return _ => true
  | _ => false

/-- Entry Cache calls on the candidate entry `e`. -/
def isCacheOp : Event → Bool
  | Event.bdb2i_cache_add_entry_lock EntryVar.e _ _ => true
  | Event.bdb2i_cache_set_state EntryVar.e _ => true
  | Event.bdb2i_cache_return_entry_w EntryVar.e => true
  | _ => false

/-- Calls that change a store or send a result. -/
def isStoreOrSend (ev : Event) : Bool := isStoreMutation ev || isSend ev

/-- Calls that attempt one of the four writes. -/
def isWrite (ev : Event) : Bool := (write ev).isSome

/-- Calls that look the parent entry up (and lock it when found). -/
def isParentLookup : Event → Bool
  | Event.bdb2i_dn2entry_w _ _ _ => true
  | _ => false

/-- Calls that would leave a trace of the candidate entry: identifier
reservation, Entry Cache calls on it, index or store changes. -/
def leavesTrace (ev : Event) : Bool := isIdOp ev || isCacheOp ev || isStoreMutation ev

/-! ## Summaries of the runs, used in the proofs -/

/-- The result code chosen by lines 124-240: that of the first step that
fails, or Success. -/
def tailCode (w : World) : Nat :=
  if w.entry_rdwr_lock ≠ 0 then LDAP_OPERATIONS_ERROR
  else if w.bdb2i_cache_add_entry_lock ≠ 0 then LDAP_ALREADY_EXISTS
  else if w.bdb2i_id2children_add ≠ 0 then LDAP_OPERATIONS_ERROR
  else if w.bdb2i_index_add_entry ≠ 0 then LDAP_OPERATIONS_ERROR
  else if w.bdb2i_dn2id_add ≠ 0 then LDAP_OPERATIONS_ERROR
  else if w.bdb2i_id2entry_add ≠ 0 then LDAP_OPERATIONS_ERROR
  else LDAP_SUCCESS

/-- The protocol steps lines 124-240 can go through, `x` being the parent or
root lock held on entry. -/
def tailShapes (x : Lock) : List (List Step) :=
  [ [Step.release x],
    [Step.acquire Lock.entry_w, Step.reserve_id, Step.release x, Step.release Lock.entry_w],
    [Step.acquire Lock.entry_w, Step.reserve_id, Step.index_write,
     Step.release x, Step.release Lock.entry_w],
    [Step.acquire Lock.entry_w, Step.reserve_id, Step.index_write, Step.index_write,
     Step.release x, Step.release Lock.entry_w],
    [Step.acquire Lock.entry_w, Step.reserve_id, Step.index_write, Step.index_write,
     Step.index_write, Step.release x, Step.release Lock.entry_w],
    [Step.acquire Lock.entry_w, Step.reserve_id, Step.index_write, Step.index_write,
     Step.index_write, Step.index_write, Step.release x, Step.release Lock.entry_w] ]

/-- The protocol steps `bdb2i_back_add_internal` can go through. -/
def internalShapes : List (List Step) :=
  [Step.acquire Lock.li_add_mutex, Step.release Lock.li_add_mutex] ::
  ((tailShapes Lock.parent_w).map fun s =>
      [Step.acquire Lock.li_add_mutex, Step.acquire Lock.parent_w,
       Step.release Lock.li_add_mutex] ++ s) ++
  ((tailShapes Lock.li_root_mutex).map fun s =>
      [Step.acquire Lock.li_add_mutex, Step.acquire Lock.li_root_mutex,
       Step.release Lock.li_add_mutex] ++ s)

/-- The protocol steps `bdb2_back_add` can go through. -/
def runShapes : List (List Step) :=
  [] :: internalShapes.map fun s =>
    Step.acquire Lock.backend :: (s ++ [Step.release Lock.backend])

/-- The writes of a run whose first three writes succeed and whose Primary
Store write fails with `rc`. -/
def storeFailed (rc : Int) : List (Store × Int) :=
  [(Store.parent_child_index, 0), (Store.attribute_indexes, 0),
   (Store.name_index, 0), (Store.primary_store, rc)]

/-! ## Concrete runs -/

/-- Scenario 1 of section 8 under an existing parent: every step succeeds. -/
def worldOk : World :=
  { NOID := 4294967295, e_ndn := "CN=BOB,OU=PEOPLE", bdb2i_enter_backend_w := 0,
    bdb2i_with_dbenv := 1, bdb2i_do_timing := 0, bdb2i_dn2id := 4294967295,
    global_schemacheck := 1, oc_schema_check := 0, dn_parent := some "OU=PEOPLE",
    bdb2i_dn2entry_w := some 1, matched := none, access_allowed := 1, be_isroot := 0,
    entry_rdwr_lock := 0, bdb2i_next_id := 7, bdb2i_cache_add_entry_lock := 0,
    bdb2i_id2children_add := 0, bdb2i_index_add_entry := 0, bdb2i_dn2id_add := 0,
    bdb2i_id2entry_add := 0 }

/-- As `worldOk`, but the Parent-Child Index write fails. -/
def worldChildrenFail : World := { worldOk with bdb2i_id2children_add := -1 }

/-- Scenario 6 of section 8: as `worldOk`, but the Primary Store write fails. -/
def worldStoreFail : World := { worldOk with bdb2i_id2entry_add := -1 }

/-- As `worldOk`, but the cache insertion fails. -/
def worldCacheFail : World := { worldOk with bdb2i_cache_add_entry_lock := 1 }

/-- Scenario 4 of section 8: the actor may not write children of the parent. -/
def worldDenied : World := { worldOk with access_allowed := 0 }

/-- Scenario 2 of section 8: the name is already in the Name Index. -/
def worldDup : World := { worldOk with bdb2i_dn2id := 3 }

/-- The actor may not write children of the parent, and the name is already
in the Name Index. -/
def worldDeniedDup : World := { worldOk with access_allowed := 0, bdb2i_dn2id := 3 }

/-- Scenario 3 of section 8: the parent entry does not exist; the lookup
matched the ancestor `O=ORG`. -/
def worldNoParent : World :=
  { worldOk with e_ndn := "CN=ALICE,OU=GHOST,O=ORG", dn_parent := some "OU=GHOST,O=ORG",
                 bdb2i_dn2entry_w := none, matched := some "O=ORG" }

/-- A name without parent, added by the administrative identity. -/
def worldRoot : World :=
  { worldOk with e_ndn := "O=ORG", dn_parent := none, bdb2i_dn2entry_w := none,
                 be_isroot := 1 }

/-- A name without parent, added by an actor that is not the administrative
identity. -/
def worldRootDenied : World := { worldRoot with be_isroot := 0 }

/-- A name without parent that is already in the Name Index, added again by
an actor that is not the administrative identity. -/
def worldRootDup : World := { worldRoot with be_isroot := 0, bdb2i_dn2id := 1 }

/-! ## Projections of the sequencing combinators -/

@[simp] theorem call_fst (ev : Event) (k : Run) : (call ev k).1 = ev :: k.1 := rfl

@[simp] theorem call_snd (ev : Event) (k : Run) : (call ev k).2 = k.2 := rfl

@[simp] theorem ret_fst (rc : Int) : (ret rc).1 = [] := rfl

@[simp] theorem ret_snd (rc : Int) : (ret rc).2 = rc := rfl

@[simp] theorem callIf_fst (c : Prop) [Decidable c] (ev : Event) (k : Run) :
    (callIf c ev k).1 = (if c then [ev] else []) ++ k.1 := by
  unfold callIf; split_ifs <;> simp

@[simp] theorem callIf_snd (c : Prop) [Decidable c] (ev : Event) (k : Run) :
    (callIf c ev k).2 = k.2 := by
  unfold callIf; split_ifs <;> simp

@[simp] theorem andThen_fst (r : Run) (k : Int → Run) :
    (andThen r k).1 = r.1 ++ (k r.2).1 := rfl

@[simp] theorem andThen_snd (r : Run) (k : Int → Run) :
    (andThen r k).2 = (k r.2).2 := rfl

@[simp] theorem filterMap_ite {β : Type} (f : Event → Option β) (c : Prop) [Decidable c]
    (a b : List Event) :
    List.filterMap f (if c then a else b)
      = if c then List.filterMap f a else List.filterMap f b := by
  split_ifs <;> rfl

@[simp] theorem filter_ite (f : Event → Bool) (c : Prop) [Decidable c] (a b : List Event) :
    List.filter f (if c then a else b)
      = if c then List.filter f a else List.filter f b := by
  split_ifs <;> rfl

@[simp] theorem mem_ite_list (x : Event) (c : Prop) [Decidable c] (a b : List Event) :
    (x ∈ if c then a else b) ↔ (if c then x ∈ a else x ∈ b) := by
  split_ifs <;> rfl

/-- The trace of `bdb2_back_add` once the backend lock is granted. -/
theorem bdb2_back_add_trace (w : World) (h : w.bdb2i_enter_backend_w = 0) :
    (bdb2_back_add w).1 =
      [Event.gettimeofday, Event.bdb2i_enter_backend_w 0] ++
      (if w.bdb2i_with_dbenv ≠ 0 then [Event.bdb2i_check_default_attr_index_add] else []) ++
      (bdb2i_back_add_internal w).1 ++ [Event.bdb2i_leave_backend] ++
      (if w.bdb2i_do_timing ≠ 0 then
        [Event.gettimeofday, Event.bdb2i_elapsed, Event.free_elapsed_time] else []) := by
  by_cases h1 : w.bdb2i_with_dbenv = 0 <;> by_cases h2 : w.bdb2i_do_timing = 0 <;>
    simp [bdb2_back_add, leave_and_time, h, h1, h2]

/-- The trace of `bdb2_back_add` when the backend lock is refused. -/
theorem bdb2_back_add_refused (w : World) (h : w.bdb2i_enter_backend_w ≠ 0) :
    bdb2_back_add w =
      ([Event.gettimeofday, Event.bdb2i_enter_backend_w w.bdb2i_enter_backend_w,
        Event.send_ldap_result LDAP_OPERATIONS_ERROR (some "")], -1) := by
  simp [bdb2_back_add, h, call, ret]

/-! ## C1: exactly one result code -/

theorem sent_add_under_lock (w : World) (p : Option Nat) (r : Int) :
    List.filterMap sent (add_under_lock w p r).1 = [(tailCode w, some "")] := by
  simp only [add_under_lock, return_results, tailCode]
  split_ifs <;> simp [sent]

theorem tailCode_mem (w : World) :
    tailCode w = LDAP_SUCCESS ∨ tailCode w = LDAP_ALREADY_EXISTS ∨
      tailCode w = LDAP_OPERATIONS_ERROR := by
  unfold tailCode
  split_ifs <;> simp

theorem sentCodes_internal (w : World) :
    ∃ c, sentCodes (bdb2i_back_add_internal w).1 = [c] ∧
      c ∈ [LDAP_SUCCESS, LDAP_ALREADY_EXISTS, LDAP_OBJECT_CLASS_VIOLATION,
           LDAP_NO_SUCH_OBJECT, LDAP_INSUFFICIENT_ACCESS, LDAP_OPERATIONS_ERROR] := by
  have hm := tailCode_mem w
  rcases hp : w.dn_parent with _ | pdn <;> rcases hq : w.bdb2i_dn2entry_w with _ | pid <;>
  simp only [bdb2i_back_add_internal, hp, hq] <;>
  split_ifs <;> simp [sentCodes, results, sent, sent_add_under_lock] <;>
  tauto

/-- C1: every run of `bdb2_back_add`, whatever its collaborators hand back,
calls `send_ldap_result` exactly once, and the code it passes is one of
Success, AlreadyExists, ObjectClassViolation, NoSuchObject,
InsufficientAccess, OperationsError. -/
theorem C1_exactly_one_result (w : World) :
    ∃ c, sentCodes (bdb2_back_add w).1 = [c] ∧
      c ∈ [LDAP_SUCCESS, LDAP_ALREADY_EXISTS, LDAP_OBJECT_CLASS_VIOLATION,
           LDAP_NO_SUCH_OBJECT, LDAP_INSUFFICIENT_ACCESS, LDAP_OPERATIONS_ERROR] := by
  by_cases h : w.bdb2i_enter_backend_w = 0
  · obtain ⟨c, hc, hmem⟩ := sentCodes_internal w
    refine ⟨c, ?_, hmem⟩
    rw [bdb2_back_add_trace w h]
    simp only [sentCodes, results] at hc ⊢
    simp [sent, hc]
  · refine ⟨LDAP_OPERATIONS_ERROR, ?_, by simp⟩
    rw [bdb2_back_add_refused w h]
    simp [sentCodes, results, sent]

/-! ## C2, C10: the locking protocol -/

theorem steps_tail_parent (w : World) (pid : Nat) :
    List.filterMap step (add_under_lock w (some pid) 0).1 ∈ tailShapes Lock.parent_w := by
  simp only [add_under_lock, return_results]
  split_ifs <;> simp_all [step, tailShapes]

theorem steps_tail_root (w : World) :
    List.filterMap step (add_under_lock w none 1).1 ∈ tailShapes Lock.li_root_mutex := by
  simp only [add_under_lock, return_results]
  split_ifs <;> simp_all [step, tailShapes]

theorem steps_internal (w : World) :
    steps (bdb2i_back_add_internal w).1 ∈ internalShapes := by
  rcases hp : w.dn_parent with _ | pdn <;> rcases hq : w.bdb2i_dn2entry_w with _ | pid <;>
  simp only [bdb2i_back_add_internal, hp, hq] <;>
  split_ifs <;> simp_all [steps, step, internalShapes]
  all_goals first
    | exact steps_tail_root w
    | exact steps_tail_parent w _
    | simp [tailShapes]

theorem steps_run (w : World) : steps (bdb2_back_add w).1 ∈ runShapes := by
  by_cases h : w.bdb2i_enter_backend_w = 0
  · have hi := steps_internal w
    rw [bdb2_back_add_trace w h]
    simp only [steps] at hi
    by_cases h1 : w.bdb2i_with_dbenv = 0 <;> by_cases h2 : w.bdb2i_do_timing = 0 <;>
      simp [steps, step, runShapes, h1, h2] <;> exact hi
  · rw [bdb2_back_add_refused w h]
    simp [steps, step, runShapes, h]

theorem lock_balance_shapes (l : Lock) :
    ∀ s ∈ runShapes,
      s.filter (touches l) = [] ∨ s.filter (touches l) = [Step.acquire l, Step.release l] := by
  cases l <;> decide

/-- C2: on every run of `bdb2_back_add`, each of the five locks (backend lock,
`li_add_mutex`, `li_root_mutex`, the parent's writer handle, the new entry's
writer lock) is either never touched, or taken once and then given back
once: nothing acquired is left held or released twice, and nothing is
released that was not acquired. -/
theorem C2_locks_released_exactly_once (w : World) (l : Lock) :
    (steps (bdb2_back_add w).1).filter (touches l) = [] ∨
    (steps (bdb2_back_add w).1).filter (touches l) = [Step.acquire l, Step.release l] :=
  lock_balance_shapes l _ (steps_run w)

theorem lock_order_shapes :
    ∀ s ∈ runShapes,
      (List.Sublist (acquisitions s)
          [Lock.backend, Lock.li_add_mutex, Lock.parent_w, Lock.entry_w] ∨
       List.Sublist (acquisitions s)
          [Lock.backend, Lock.li_add_mutex, Lock.li_root_mutex, Lock.entry_w]) ∧
      ∀ i, i < s.length →
        (s[i]? = some (Step.acquire Lock.li_add_mutex) →
          holds Lock.backend (s.take i) = true) ∧
        (s[i]? = some (Step.acquire Lock.parent_w) ∨
         s[i]? = some (Step.acquire Lock.li_root_mutex) →
          holds Lock.li_add_mutex (s.take i) = true) ∧
        (s[i]? = some (Step.acquire Lock.entry_w) ∨ s[i]? = some Step.reserve_id ∨
         s[i]? = some Step.index_write →
          Step.release Lock.li_add_mutex ∈ s.take i ∧
          holds Lock.li_add_mutex (s.take i) = false) := by
  decide

/-- C10: on every run of `bdb2_back_add` the locks taken are taken in the
order backend lock, add mutex, then the parent writer lock or the root mutex
(never both), then the new entry's writer lock; the add mutex is taken only
while the backend lock is held, the parent or root lock is taken while the
add mutex is held, and when the new entry's lock is taken, the identifier is
reserved, or an index write is attempted, the add mutex has already been
released and is no longer held. -/
theorem C10_lock_hierarchy (w : World) :
    (List.Sublist (acquisitions (steps (bdb2_back_add w).1))
        [Lock.backend, Lock.li_add_mutex, Lock.parent_w, Lock.entry_w] ∨
     List.Sublist (acquisitions (steps (bdb2_back_add w).1))
        [Lock.backend, Lock.li_add_mutex, Lock.li_root_mutex, Lock.entry_w]) ∧
    ∀ i,
      ((steps (bdb2_back_add w).1)[i]? = some (Step.acquire Lock.li_add_mutex) →
        holds Lock.backend ((steps (bdb2_back_add w).1).take i) = true) ∧
      ((steps (bdb2_back_add w).1)[i]? = some (Step.acquire Lock.parent_w) ∨
       (steps (bdb2_back_add w).1)[i]? = some (Step.acquire Lock.li_root_mutex) →
        holds Lock.li_add_mutex ((steps (bdb2_back_add w).1).take i) = true) ∧
      ((steps (bdb2_back_add w).1)[i]? = some (Step.acquire Lock.entry_w) ∨
       (steps (bdb2_back_add w).1)[i]? = some Step.reserve_id ∨
       (steps (bdb2_back_add w).1)[i]? = some Step.index_write →
        Step.release Lock.li_add_mutex ∈ (steps (bdb2_back_add w).1).take i ∧
        holds Lock.li_add_mutex ((steps (bdb2_back_add w).1).take i) = false) := by
  obtain ⟨h1, h2⟩ := lock_order_shapes _ (steps_run w)
  refine ⟨h1, fun i => ?_⟩
  by_cases hi : i < (steps (bdb2_back_add w).1).length
  · exact h2 i hi
  · have hn : (steps (bdb2_back_add w).1)[i]? = none :=
      List.getElem?_eq_none (Nat.le_of_not_lt hi)
    simp [hn]

/-- C10 (witness): in the fully successful run the add mutex is step 1, taken
while the backend lock is held, and the identifier is reserved at step 5,
after the add mutex was released. -/
theorem C10_lock_hierarchy_witness :
    holds Lock.backend ((steps (bdb2_back_add worldOk).1).take 1) = true ∧
    (Step.release Lock.li_add_mutex ∈ (steps (bdb2_back_add worldOk).1).take 5 ∧
      holds Lock.li_add_mutex ((steps (bdb2_back_add worldOk).1).take 5) = false) :=
  ⟨((C10_lock_hierarchy worldOk).2 1).1 (by decide),
   ((C10_lock_hierarchy worldOk).2 5).2.2 (Or.inr (Or.inl (by decide)))⟩

/-! ## C3: the fixed write order -/

theorem write_order_tail (w : World) (p : Option Nat) (r : Int) :
    (List.filterMap write (add_under_lock w p r).1).map Prod.fst
        = writeOrder.take (List.filterMap write (add_under_lock w p r).1).length ∧
    (∀ x ∈ (List.filterMap write (add_under_lock w p r).1).dropLast, x.2 = 0) ∧
    (List.filterMap write (add_under_lock w p r).1 = allWritten →
      tailCode w = LDAP_SUCCESS ∧ (add_under_lock w p r).2 = 0) ∧
    (List.filterMap write (add_under_lock w p r).1 ≠ allWritten →
      LDAP_SUCCESS ≠ tailCode w ∧ (add_under_lock w p r).2 = -1) := by
  simp only [add_under_lock, return_results, tailCode]
  split_ifs <;> simp_all [write, writeOrder, allWritten] <;> decide

/-- C3: on every run of `bdb2i_back_add_internal` the writes attempted are an
initial segment of Parent-Child Index, Attribute Indexes, Name Index, Primary
Store, each at most once; every write but the last attempted one succeeded;
and the run reports Success and returns 0 exactly when all four were
attempted and succeeded, otherwise it does not report Success and returns
-1. -/
theorem C3_fixed_write_order (w : World) :
    (writes (bdb2i_back_add_internal w).1).map Prod.fst
        = writeOrder.take (writes (bdb2i_back_add_internal w).1).length ∧
    (∀ x ∈ (writes (bdb2i_back_add_internal w).1).dropLast, x.2 = 0) ∧
    (writes (bdb2i_back_add_internal w).1 = allWritten →
      sentCodes (bdb2i_back_add_internal w).1 = [LDAP_SUCCESS] ∧
      (bdb2i_back_add_internal w).2 = 0) ∧
    (writes (bdb2i_back_add_internal w).1 ≠ allWritten →
      LDAP_SUCCESS ∉ sentCodes (bdb2i_back_add_internal w).1 ∧
      (bdb2i_back_add_internal w).2 = -1) := by
  have h1 := write_order_tail w none 1
  have h2 := fun pid => write_order_tail w (some pid) 0
  rcases hp : w.dn_parent with _ | pdn <;> rcases hq : w.bdb2i_dn2entry_w with _ | pid <;>
  simp only [bdb2i_back_add_internal, hp, hq] <;>
  split_ifs <;>
  simp [writes, write, sentCodes, results, sent, sent_add_under_lock, writeOrder, allWritten]
  all_goals first
    | decide
    | simpa [writeOrder, allWritten] using h1
    | simpa [writeOrder, allWritten] using h2 _

/-- C3 (witness): the fully successful run reports Success and returns 0; the
run whose Parent-Child Index write fails does not, and returns -1. -/
theorem C3_fixed_write_order_witness :
    (sentCodes (bdb2i_back_add_internal worldOk).1 = [LDAP_SUCCESS] ∧
      (bdb2i_back_add_internal worldOk).2 = 0) ∧
    (LDAP_SUCCESS ∉ sentCodes (bdb2i_back_add_internal worldChildrenFail).1 ∧
      (bdb2i_back_add_internal worldChildrenFail).2 = -1) :=
  ⟨(C3_fixed_write_order worldOk).2.2.1 (by decide),
   (C3_fixed_write_order worldChildrenFail).2.2.2 (by decide)⟩

/-! ## C5: the one compensating write -/

theorem undo_tail (w : World) (p : Option Nat) (r : Int) :
    (∀ rc, ¬rc = 0 → List.filterMap write (add_under_lock w p r).1 = storeFailed rc →
      ∃ q, List.filter isStoreOrSend (add_under_lock w p r).1 =
        [Event.bdb2i_id2children_add q 0, Event.bdb2i_index_add_entry 0,
         Event.bdb2i_dn2id_add w.e_ndn w.bdb2i_next_id 0, Event.bdb2i_id2entry_add rc,
         Event.bdb2i_dn2id_delete w.e_ndn,
         Event.send_ldap_result LDAP_OPERATIONS_ERROR (some "")]) ∧
    ((∀ rc, ¬rc = 0 → ¬List.filterMap write (add_under_lock w p r).1 = storeFailed rc) →
      (∀ ndn, Event.bdb2i_dn2id_delete ndn ∉ (add_under_lock w p r).1) ∧
      List.filter isStoreMutation (add_under_lock w p r).1 =
        List.filter isWrite (add_under_lock w p r).1) := by
  simp only [add_under_lock, return_results]
  split_ifs <;>
    simp_all [write, storeFailed, isStoreMutation, isSend, isStoreOrSend, isWrite]
  intro rc h1 h2
  exact h1 h2.symm

/-- C5: on a run of `bdb2i_back_add_internal` in which the Parent-Child,
Attribute and Name Index writes succeed and the Primary Store write fails,
the calls that touch a store or send a result are exactly: the four writes,
one `bdb2i_dn2id_delete` of the entry's normalized name, then the result
OperationsError; so the Name Index record is deleted once, before the result
is sent, and nothing is undone in the Parent-Child Index or the Attribute
Indexes.  On every other run no `bdb2i_dn2id_delete` is called and the only
calls that change a store are the forward writes. -/
theorem C5_only_name_index_undone (w : World) :
    (∀ rc, rc ≠ 0 → writes (bdb2i_back_add_internal w).1 = storeFailed rc →
      ∃ p, List.filter isStoreOrSend (bdb2i_back_add_internal w).1 =
        [Event.bdb2i_id2children_add p 0, Event.bdb2i_index_add_entry 0,
         Event.bdb2i_dn2id_add w.e_ndn w.bdb2i_next_id 0, Event.bdb2i_id2entry_add rc,
         Event.bdb2i_dn2id_delete w.e_ndn,
         Event.send_ldap_result LDAP_OPERATIONS_ERROR (some "")]) ∧
    ((∀ rc, rc ≠ 0 → writes (bdb2i_back_add_internal w).1 ≠ storeFailed rc) →
      (∀ ndn, Event.bdb2i_dn2id_delete ndn ∉ (bdb2i_back_add_internal w).1) ∧
      List.filter isStoreMutation (bdb2i_back_add_internal w).1 =
        List.filter isWrite (bdb2i_back_add_internal w).1) := by
  have h1 := undo_tail w none 1
  have h2 := fun pid => undo_tail w (some pid) 0
  rcases hp : w.dn_parent with _ | pdn <;> rcases hq : w.bdb2i_dn2entry_w with _ | pid <;>
  simp only [bdb2i_back_add_internal, hp, hq] <;>
  split_ifs <;>
  simp [writes, write, isStoreMutation, isSend, isStoreOrSend, isWrite, storeFailed]
  all_goals first
    | simpa [storeFailed] using h1
    | simpa [storeFailed] using h2 _

/-- C5 (witness): scenario 6 of section 8. -/
theorem C5_only_name_index_undone_witness :
    ∃ p, List.filter isStoreOrSend (bdb2i_back_add_internal worldStoreFail).1 =
      [Event.bdb2i_id2children_add p 0, Event.bdb2i_index_add_entry 0,
       Event.bdb2i_dn2id_add worldStoreFail.e_ndn worldStoreFail.bdb2i_next_id 0,
       Event.bdb2i_id2entry_add (-1),
       Event.bdb2i_dn2id_delete worldStoreFail.e_ndn,
       Event.send_ldap_result LDAP_OPERATIONS_ERROR (some "")] :=
  (C5_only_name_index_undone worldStoreFail).1 (-1) (by decide) (by decide)

/-! ## C4: the reserved identifier -/

theorem idOps_tail (w : World) (p : Option Nat) (r : Int) :
    List.filter isIdOp (add_under_lock w p r).1 =
      if w.entry_rdwr_lock ≠ 0 then []
      else if w.bdb2i_cache_add_entry_lock ≠ 0 then
        [Event.bdb2i_next_id w.bdb2i_next_id, Event.bdb2i_next_id_return w.bdb2i_next_id]
      else [Event.bdb2i_next_id w.bdb2i_next_id] := by
  simp only [add_under_lock, return_results]
  split_ifs <;> simp [isIdOp]

/-- What the code does with the identifier: whenever `bdb2i_next_id` is
called, `bdb2i_next_id_return` is called (once, with the same identifier)
exactly when the cache insertion fails; after a successful cache insertion the
identifier is never handed back, whatever the four writes do. -/
theorem identifier_returned_only_on_cache_failure (w : World) (id : Nat)
    (h : Event.bdb2i_next_id id ∈ (bdb2i_back_add_internal w).1) :
    id = w.bdb2i_next_id ∧
    (w.bdb2i_cache_add_entry_lock ≠ 0 →
      List.filter isIdOp (bdb2i_back_add_internal w).1 =
        [Event.bdb2i_next_id id, Event.bdb2i_next_id_return id]) ∧
    (w.bdb2i_cache_add_entry_lock = 0 →
      List.filter isIdOp (bdb2i_back_add_internal w).1 = [Event.bdb2i_next_id id]) := by
  have hmem : ∀ p r, Event.bdb2i_next_id id ∈ (add_under_lock w p r).1 →
      Event.bdb2i_next_id id ∈ List.filter isIdOp (add_under_lock w p r).1 :=
    fun p r hx => List.mem_filter.mpr ⟨hx, rfl⟩
  have ht := idOps_tail w
  revert h
  rcases hp : w.dn_parent with _ | pdn <;> rcases hq : w.bdb2i_dn2entry_w with _ | pid <;>
  simp only [bdb2i_back_add_internal, hp, hq] <;>
  split_ifs <;> simp [isIdOp, ht] <;>
  intro h <;>
  first
    | (have h3 := hmem none 1 h; rw [ht] at h3; revert h3; split_ifs <;> simp_all)
    | (have h3 := hmem (some _) 0 h; rw [ht] at h3; revert h3; split_ifs <;> simp_all)

/-- A run whose cache insertion fails hands identifier 7 back. -/
theorem identifier_returned_only_on_cache_failure_witness :
    List.filter isIdOp (bdb2i_back_add_internal worldCacheFail).1 =
      [Event.bdb2i_next_id 7, Event.bdb2i_next_id_return 7] :=
  (identifier_returned_only_on_cache_failure worldCacheFail 7 (by decide)).2.1 (by decide)

/-- C4 (the code at the failing input): when the Parent-Child Index write
fails, identifier 7 has been reserved, the run ends in OperationsError and
returns -1, and `bdb2i_next_id_return` is never called. -/
theorem C4_identifier_not_returned_after_write_failure :
    List.filter isIdOp (bdb2i_back_add_internal worldChildrenFail).1
      = [Event.bdb2i_next_id 7] ∧
    Event.bdb2i_next_id_return 7 ∉ (bdb2i_back_add_internal worldChildrenFail).1 ∧
    sentCodes (bdb2i_back_add_internal worldChildrenFail).1 = [LDAP_OPERATIONS_ERROR] ∧
    (bdb2i_back_add_internal worldChildrenFail).2 = -1 := by
  decide

/-! ## C9: lifecycle of the entry in the cache -/

theorem cacheOps_tail (w : World) (p : Option Nat) (r : Int) :
    (∀ x st rc, Event.bdb2i_cache_add_entry_lock x st rc ∈ (add_under_lock w p r).1 →
      x = EntryVar.e ∧ st = ENTRY_STATE_CREATING) ∧
    (Event.bdb2i_cache_add_entry_lock EntryVar.e ENTRY_STATE_CREATING 0
        ∈ (add_under_lock w p r).1 →
      List.filter isCacheOp (add_under_lock w p r).1 =
        [Event.bdb2i_cache_add_entry_lock EntryVar.e ENTRY_STATE_CREATING 0,
         Event.bdb2i_cache_set_state EntryVar.e 0,
         Event.bdb2i_cache_return_entry_w EntryVar.e]) := by
  simp only [add_under_lock, return_results]
  split_ifs <;> simp_all [isCacheOp]
  intro h
  simp_all

/-- C9 (as the code has it): the candidate entry is only ever inserted into
the Entry Cache in state `ENTRY_STATE_CREATING`; and on every run of
`bdb2i_back_add_internal` in which that insertion succeeds, whatever the four
writes do afterwards, the Entry Cache calls on the entry are the same three:
the insertion, `bdb2i_cache_set_state(e, 0)`, and the return of its writer
handle; no other Entry Cache call is made on the entry.  Success is reported
only when all four writes succeeded. -/
theorem C9_same_cache_calls_on_every_outcome (w : World) :
    (∀ x st rc, Event.bdb2i_cache_add_entry_lock x st rc ∈ (bdb2i_back_add_internal w).1 →
      x = EntryVar.e ∧ st = ENTRY_STATE_CREATING) ∧
    (Event.bdb2i_cache_add_entry_lock EntryVar.e ENTRY_STATE_CREATING 0
        ∈ (bdb2i_back_add_internal w).1 →
      List.filter isCacheOp (bdb2i_back_add_internal w).1 =
        [Event.bdb2i_cache_add_entry_lock EntryVar.e ENTRY_STATE_CREATING 0,
         Event.bdb2i_cache_set_state EntryVar.e 0,
         Event.bdb2i_cache_return_entry_w EntryVar.e]) ∧
    (sentCodes (bdb2i_back_add_internal w).1 = [LDAP_SUCCESS] →
      writes (bdb2i_back_add_internal w).1 = allWritten) := by
  have h1 := cacheOps_tail w none 1
  have h2 := fun pid => cacheOps_tail w (some pid) 0
  have h3 := write_order_tail w none 1
  have h4 := fun pid => write_order_tail w (some pid) 0
  rcases hp : w.dn_parent with _ | pdn <;> rcases hq : w.bdb2i_dn2entry_w with _ | pid <;>
  simp only [bdb2i_back_add_internal, hp, hq] <;>
  split_ifs <;>
  simp [isCacheOp, writes, write, sentCodes, results, sent, sent_add_under_lock]
  all_goals first
    | decide
    | (refine ⟨h1.1, h1.2, fun hs => ?_⟩
       by_contra hne
       exact (h3.2.2.2 hne).1 hs.symm)
    | (refine ⟨(h2 _).1, (h2 _).2, fun hs => ?_⟩
       by_contra hne
       exact ((h4 _).2.2.2 hne).1 hs.symm)

/-- C9 (witness): the run whose Primary Store write fails. -/
theorem C9_same_cache_calls_witness :
    List.filter isCacheOp (bdb2i_back_add_internal worldStoreFail).1 =
      [Event.bdb2i_cache_add_entry_lock EntryVar.e ENTRY_STATE_CREATING 0,
       Event.bdb2i_cache_set_state EntryVar.e 0,
       Event.bdb2i_cache_return_entry_w EntryVar.e] :=
  (C9_same_cache_calls_on_every_outcome worldStoreFail).2.1 (by decide)

/-- C9 (the claim fails): a run whose Parent-Child Index write fails applies
to the entry exactly the Entry Cache calls of the fully successful run,
`bdb2i_cache_set_state(e, 0)` included, although it reports OperationsError. -/
theorem C9_failed_run_has_the_cache_calls_of_success :
    List.filter isCacheOp (bdb2i_back_add_internal worldChildrenFail).1 =
      List.filter isCacheOp (bdb2i_back_add_internal worldOk).1 ∧
    List.filter isCacheOp (bdb2i_back_add_internal worldChildrenFail).1 =
      [Event.bdb2i_cache_add_entry_lock EntryVar.e ENTRY_STATE_CREATING 0,
       Event.bdb2i_cache_set_state EntryVar.e 0,
       Event.bdb2i_cache_return_entry_w EntryVar.e] ∧
    writes (bdb2i_back_add_internal worldChildrenFail).1
      = [(Store.parent_child_index, -1)] ∧
    sentCodes (bdb2i_back_add_internal worldChildrenFail).1 = [LDAP_OPERATIONS_ERROR] ∧
    sentCodes (bdb2i_back_add_internal worldOk).1 = [LDAP_SUCCESS] := by
  decide

/-! ## C6: root admission control -/

/-- C6 (as the code has it): for an entry whose name has no parent
(`dn_parent` returns `NULL`), `bdb2i_back_add_internal` reports Success only
if the actor is the administrative identity; an actor that is not receives
InsufficientAccess provided the name is not yet in the Name Index and the
schema check passes.  Those two checks come first: the same actor receives
AlreadyExists for a name already in the Name Index, and ObjectClassViolation
for a new name that fails the schema check. -/
theorem C6_root_admission (w : World) (hnp : w.dn_parent = none) :
    (LDAP_SUCCESS ∈ sentCodes (bdb2i_back_add_internal w).1 → w.be_isroot ≠ 0) ∧
    (w.be_isroot = 0 → w.bdb2i_dn2id = w.NOID →
      (w.global_schemacheck = 0 ∨ w.oc_schema_check = 0) →
      sentCodes (bdb2i_back_add_internal w).1 = [LDAP_INSUFFICIENT_ACCESS]) ∧
    (w.be_isroot = 0 → w.bdb2i_dn2id ≠ w.NOID →
      sentCodes (bdb2i_back_add_internal w).1 = [LDAP_ALREADY_EXISTS]) ∧
    (w.be_isroot = 0 → w.bdb2i_dn2id = w.NOID →
      w.global_schemacheck ≠ 0 → w.oc_schema_check ≠ 0 →
      sentCodes (bdb2i_back_add_internal w).1 = [LDAP_OBJECT_CLASS_VIOLATION]) := by
  simp only [bdb2i_back_add_internal, hnp]
  split_ifs <;> simp_all [sentCodes, results, sent] <;>
    first
      | decide
      | (intro h; exact absurd h (by decide))

/-- C6 (witness): an actor that is not the administrative identity adds a new,
schema-conforming name without parent and receives InsufficientAccess. -/
theorem C6_root_admission_witness :
    worldRootDenied.dn_parent = none ∧ worldRootDenied.be_isroot = 0 ∧
    sentCodes (bdb2i_back_add_internal worldRootDenied).1 = [LDAP_INSUFFICIENT_ACCESS] :=
  ⟨rfl, rfl,
    (C6_root_admission worldRootDenied rfl).2.1 (by decide) (by decide) (by decide)⟩

/-- C6 (the claim fails): an actor that is not the administrative identity adds
a name without parent that is already in the Name Index; the result is
AlreadyExists, not InsufficientAccess. -/
theorem C6_non_admin_gets_already_exists :
    worldRootDup.dn_parent = none ∧ worldRootDup.be_isroot = 0 ∧
    sentCodes (bdb2i_back_add_internal worldRootDup).1 = [LDAP_ALREADY_EXISTS] ∧
    sentCodes (bdb2i_back_add_internal worldRootDup).1 ≠ [LDAP_INSUFFICIENT_ACCESS] := by
  decide

/-! ## C7: parent access gating -/

/-- C7 (as the code has it): for an entry whose parent exists and on which the
actor has no write access to `children`, `bdb2i_back_add_internal` never
reports Success, reserves no identifier, makes no Entry Cache call on the
entry and changes no index or store; a parent handle that was taken is given
back once.  The result is InsufficientAccess, with the parent looked up once
and its writer handle taken and returned, provided the name is not yet in the
Name Index and the schema check passes; otherwise the earlier checks answer:
AlreadyExists for a name already present, ObjectClassViolation for a failed
schema check, and in those two cases the parent is not looked up and no
parent handle is taken. -/
theorem C7_parent_access_gating (w : World) (pdn : String) (pid : Nat)
    (hp : w.dn_parent = some pdn) (hq : w.bdb2i_dn2entry_w = some pid)
    (ha : w.access_allowed = 0) :
    List.filter leavesTrace (bdb2i_back_add_internal w).1 = [] ∧
    LDAP_SUCCESS ∉ sentCodes (bdb2i_back_add_internal w).1 ∧
    ((steps (bdb2i_back_add_internal w).1).filter (touches Lock.parent_w) = [] ∨
     (steps (bdb2i_back_add_internal w).1).filter (touches Lock.parent_w) =
        [Step.acquire Lock.parent_w, Step.release Lock.parent_w]) ∧
    (w.bdb2i_dn2id = w.NOID → (w.global_schemacheck = 0 ∨ w.oc_schema_check = 0) →
      sentCodes (bdb2i_back_add_internal w).1 = [LDAP_INSUFFICIENT_ACCESS] ∧
      List.filter isParentLookup (bdb2i_back_add_internal w).1 =
        [Event.bdb2i_dn2entry_w pdn (some pid) w.matched] ∧
      (steps (bdb2i_back_add_internal w).1).filter (touches Lock.parent_w) =
        [Step.acquire Lock.parent_w, Step.release Lock.parent_w]) ∧
    (w.bdb2i_dn2id ≠ w.NOID →
      sentCodes (bdb2i_back_add_internal w).1 = [LDAP_ALREADY_EXISTS] ∧
      List.filter isParentLookup (bdb2i_back_add_internal w).1 = [] ∧
      (steps (bdb2i_back_add_internal w).1).filter (touches Lock.parent_w) = []) ∧
    (w.bdb2i_dn2id = w.NOID → w.global_schemacheck ≠ 0 → w.oc_schema_check ≠ 0 →
      sentCodes (bdb2i_back_add_internal w).1 = [LDAP_OBJECT_CLASS_VIOLATION] ∧
      List.filter isParentLookup (bdb2i_back_add_internal w).1 = [] ∧
      (steps (bdb2i_back_add_internal w).1).filter (touches Lock.parent_w) = []) := by
  simp only [bdb2i_back_add_internal, hp, hq]
  split_ifs <;>
    simp_all [sentCodes, results, sent, steps, step, touches, leavesTrace, isIdOp,
      isCacheOp, isStoreMutation, isParentLookup] <;>
    decide

/-- C7 (witness): scenario 4 of section 8. -/
theorem C7_parent_access_gating_witness :
    List.filter leavesTrace (bdb2i_back_add_internal worldDenied).1 = [] ∧
    sentCodes (bdb2i_back_add_internal worldDenied).1 = [LDAP_INSUFFICIENT_ACCESS] ∧
    List.filter isParentLookup (bdb2i_back_add_internal worldDenied).1 =
      [Event.bdb2i_dn2entry_w "OU=PEOPLE" (some 1) worldDenied.matched] ∧
    (steps (bdb2i_back_add_internal worldDenied).1).filter (touches Lock.parent_w) =
      [Step.acquire Lock.parent_w, Step.release Lock.parent_w] :=
  have h := C7_parent_access_gating worldDenied "OU=PEOPLE" 1 rfl rfl rfl
  ⟨h.1, h.2.2.2.1 (by decide) (by decide)⟩

/-- C7 (the claim fails): the parent exists and the actor has no write access
to its children, but the name is already in the Name Index; the result is
AlreadyExists, not InsufficientAccess. -/
theorem C7_denied_actor_gets_already_exists :
    worldDeniedDup.dn_parent = some "OU=PEOPLE" ∧
    worldDeniedDup.bdb2i_dn2entry_w = some 1 ∧
    worldDeniedDup.access_allowed = 0 ∧
    sentCodes (bdb2i_back_add_internal worldDeniedDup).1 = [LDAP_ALREADY_EXISTS] ∧
    sentCodes (bdb2i_back_add_internal worldDeniedDup).1 ≠ [LDAP_INSUFFICIENT_ACCESS] := by
  decide

/-! ## C8: precondition violations leave no state -/

/-- C8: on every run of `bdb2i_back_add_internal` in which the Name Index
already maps the candidate's normalized name, the result is AlreadyExists,
whatever the actor, the parent or the schema check; and on every run in
which the name is new, the schema check passes, the name has a parent and the
parent lookup finds no entry, the result is NoSuchObject carrying the matched
name the lookup produced.  In both cases no identifier is reserved, no Entry
Cache call is made on the entry, and no index or store is changed. -/
theorem C8_precondition_violations_leave_no_state (w : World) :
    (w.bdb2i_dn2id ≠ w.NOID →
      results (bdb2i_back_add_internal w).1 = [(LDAP_ALREADY_EXISTS, some "")] ∧
      List.filter leavesTrace (bdb2i_back_add_internal w).1 = []) ∧
    (∀ pdn, w.bdb2i_dn2id = w.NOID →
      (w.global_schemacheck = 0 ∨ w.oc_schema_check = 0) →
      w.dn_parent = some pdn → w.bdb2i_dn2entry_w = none →
      results (bdb2i_back_add_internal w).1 = [(LDAP_NO_SUCH_OBJECT, w.matched)] ∧
      List.filter leavesTrace (bdb2i_back_add_internal w).1 = []) := by
  refine ⟨fun h => ?_, fun pdn h1 h2 hp hq => ?_⟩
  · simp [bdb2i_back_add_internal, h, results, sent, leavesTrace, isIdOp, isCacheOp,
      isStoreMutation]
  · simp only [bdb2i_back_add_internal, hp, hq]
    split_ifs <;>
      simp_all [results, sent, leavesTrace, isIdOp, isCacheOp, isStoreMutation]

/-- C8 (witness): scenarios 2 and 3 of section 8. -/
theorem C8_precondition_violations_witness :
    (results (bdb2i_back_add_internal worldDup).1 = [(LDAP_ALREADY_EXISTS, some "")] ∧
      List.filter leavesTrace (bdb2i_back_add_internal worldDup).1 = []) ∧
    (results (bdb2i_back_add_internal worldNoParent).1
        = [(LDAP_NO_SUCH_OBJECT, some "O=ORG")] ∧
      List.filter leavesTrace (bdb2i_back_add_internal worldNoParent).1 = []) :=
  ⟨(C8_precondition_violations_leave_no_state worldDup).1 (by decide),
   (C8_precondition_violations_leave_no_state worldNoParent).2 "OU=GHOST,O=ORG"
      (by decide) (by decide) rfl rfl⟩

end BackBdb2
